import Mathlib

/-!
Verification of the cost-governed request pipeline of the gpt5 MCP server.

The definitions below are a shallow embedding of the TypeScript sources:
* `src/src/cost-manager.ts` (CostManager: limits, ledgers, check-and-record),
* `src/src/index.ts` (budget planner helpers, resource normalizer, tool handlers),
* `src/src/openai-client.ts` (usage extraction and the fallback chain),
* `src/src/conversation.ts` (conversation store and message trimming).

JavaScript numbers are modelled as exact rationals (`ℚ`) / naturals, JS `Map`s
as association lists, and the impure "today" date as an explicit parameter.
JS truthiness (`0`, `''`, `undefined` are falsy) is modelled explicitly where
the source relies on it.
-/

/-- JS lookup `map.get(k) || 0` on a day/task ledger (absent keys read as 0). -/
def lookupD (m : List (String × ℚ)) (k : String) : ℚ :=
  (m.lookup k).getD 0

/-- JS `map.set(k, v)`: replace the binding for `k`, or append it. -/
def mapSet (m : List (String × ℚ)) (k : String) (v : ℚ) : List (String × ℚ) :=
  match m with
  | [] => [(k, v)]
  | (k', v') :: rest => if k' = k then (k, v) :: rest else (k', v') :: mapSet rest k v

/-- Left-pad a digit string with zeros to width `d` (used by `jsToFixed`). -/
def padLeftZeros (s : String) (d : Nat) : String :=
  String.mk (List.replicate (d - s.length) '0') ++ s

/-- `Number.prototype.toFixed(d)` on a non-negative rational: round to `d`
decimal digits, ties upward, and render with exactly `d` fractional digits. -/
def jsToFixedAbs (q : ℚ) (d : Nat) : String :=
  let n : Nat := (⌊q * (10 : ℚ) ^ d + 1/2⌋).toNat
  let ip := n / 10 ^ d
  let fp := n % 10 ^ d
  if d = 0 then toString ip
  else toString ip ++ "." ++ padLeftZeros (toString fp) d

/-- `Number.prototype.toFixed(d)`: sign split, then `jsToFixedAbs`. -/
def jsToFixed (q : ℚ) (d : Nat) : String :=
  if q < 0 then "-" ++ jsToFixedAbs (-q) d else jsToFixedAbs q d

/-- TokenUsage from `src/src/types.ts`: token counts plus estimated cost. -/
structure TokenUsage where
  inputTokens : Nat
  outputTokens : Nat
  reasoningTokens : Option Nat := none
  totalTokens : Nat
  estimatedCost : ℚ
deriving DecidableEq

/-- UsageRecord from `src/src/cost-manager.ts` (timestamps kept as strings). -/
structure UsageRecord where
  timestamp : String
  taskId : String
  cost : ℚ
  tokensInput : Nat
  tokensOutput : Nat
  tokensReasoning : Option Nat
deriving DecidableEq

/-- CostLimits from `src/src/types.ts`; the CostManager constructor always
fills both fields with numbers, so they are plain rationals here (JS
truthiness of a limit is `≠ 0`). -/
structure CostLimits where
  daily : ℚ
  perTask : ℚ
deriving DecidableEq

/-- The mutable state of the CostManager (`src/src/cost-manager.ts`). -/
structure CostState where
  dailyUsage : List (String × ℚ)
  taskUsage : List (String × ℚ)
  limits : CostLimits
  usageHistory : List UsageRecord
  currentTaskId : Option String
deriving DecidableEq

/-- The result object of `checkAndRecordUsage`; fields the source omits on a
given return path are modelled by their JS-falsy defaults. -/
structure CheckResult where
  allowed : Bool
  reason : Option String := none
  warning : Option String := none
  needsConfirmation : Bool := false
deriving DecidableEq

/-- `recordUsage` (cost-manager.ts lines 137-165): bump the day and task
ledgers, append to history, set the current task. Persistence is a side
effect outside the state model. -/
def recordUsage (today : String) (st : CostState) (taskId : String) (usage : TokenUsage) :
    CostState :=
  { st with
    dailyUsage := mapSet st.dailyUsage today (lookupD st.dailyUsage today + usage.estimatedCost)
    taskUsage := mapSet st.taskUsage taskId (lookupD st.taskUsage taskId + usage.estimatedCost)
    usageHistory := st.usageHistory ++
      [{ timestamp := today, taskId := taskId, cost := usage.estimatedCost,
         tokensInput := usage.inputTokens, tokensOutput := usage.outputTokens,
         tokensReasoning := usage.reasoningTokens }]
    currentTaskId := some taskId }

/-- The daily-limit refusal message template (cost-manager.ts line 61). -/
def approachingDailyMsg (remainingDaily remainingPercentage daily cost : ℚ) : String :=
  "Approaching daily limit: Only $" ++ jsToFixed remainingDaily 2 ++ " remaining (" ++
    jsToFixed remainingPercentage 1 ++ "% of $" ++ jsToFixed daily 2 ++
    "). This request costs $" ++ jsToFixed cost 4 ++ ". Do you want to proceed?"

/-- The 10x task-limit refusal message template (cost-manager.ts lines 73-77). -/
def extremeTaskMsg (total perTask : ℚ) : String :=
  "Extremely high task spending detected: $" ++ jsToFixed total 2 ++
    " (>10x task limit of $" ++ jsToFixed perTask 2 ++ "). This may be a mistake."

/-- Daily-usage warnings pushed by cost-manager.ts lines 85-103 (empty when
the daily limit is JS-falsy, i.e. zero). -/
def dailyWarnings (daily dailyTotal cost : ℚ) : List String :=
  if daily ≠ 0 then
    let dailyPercentage := (dailyTotal + cost) / daily * 100
    if dailyPercentage > 100 then
      ["Daily spending: $" ++ jsToFixed (dailyTotal + cost) 2 ++ " (" ++
        jsToFixed dailyPercentage 0 ++ "% over limit of $" ++ jsToFixed daily 2 ++ ")"]
    else if dailyPercentage > 80 then
      ["Daily usage at " ++ jsToFixed dailyPercentage 1 ++ "% of limit ($" ++
        jsToFixed (dailyTotal + cost) 2 ++ " / $" ++ jsToFixed daily 2 ++ ")"]
    else []
  else []

/-- Task-usage warnings pushed by cost-manager.ts lines 105-123. -/
def taskWarnings (perTask taskTotal cost : ℚ) : List String :=
  if perTask ≠ 0 then
    let taskPercentage := (taskTotal + cost) / perTask * 100
    if taskPercentage > 100 then
      ["Task spending: $" ++ jsToFixed (taskTotal + cost) 2 ++ " (" ++
        jsToFixed taskPercentage 0 ++ "% over limit of $" ++ jsToFixed perTask 2 ++ ")"]
    else if taskPercentage > 80 then
      ["Task usage at " ++ jsToFixed taskPercentage 1 ++ "% of limit ($" ++
        jsToFixed (taskTotal + cost) 2 ++ " / $" ++ jsToFixed perTask 2 ++ ")"]
    else []
  else []

/-- `warnings.join('; ')` guarded by `warnings.length > 0` (lines 127-129). -/
def joinWarnings (ws : List String) : Option String :=
  if ws.length > 0 then some (String.intercalate "; " ws) else none

/-- `checkAndRecordUsage` (cost-manager.ts lines 43-135), with "today" passed
explicitly. The two early returns keep the state unchanged; the allowed path
records the usage as part of the same operation. -/
def checkAndRecordUsage (today : String) (st : CostState) (taskId : String)
    (usage : TokenUsage) (userConfirmed : Bool) : CheckResult × CostState :=
  let dailyTotal := lookupD st.dailyUsage today
  let taskTotal := lookupD st.taskUsage taskId
  if st.limits.daily ≠ 0 ∧ userConfirmed = false ∧
      ((st.limits.daily - dailyTotal) / st.limits.daily * 100 ≤ 10 ∨
        usage.estimatedCost > st.limits.daily - dailyTotal) then
    ({ allowed := false, needsConfirmation := true,
       reason := some (approachingDailyMsg (st.limits.daily - dailyTotal)
         ((st.limits.daily - dailyTotal) / st.limits.daily * 100)
         st.limits.daily usage.estimatedCost) }, st)
  else if st.limits.perTask ≠ 0 ∧ taskTotal + usage.estimatedCost > st.limits.perTask * 10 then
    ({ allowed := false,
       reason := some (extremeTaskMsg (taskTotal + usage.estimatedCost) st.limits.perTask) }, st)
  else
    let warnings := dailyWarnings st.limits.daily dailyTotal usage.estimatedCost ++
      taskWarnings st.limits.perTask taskTotal usage.estimatedCost
    ({ allowed := true, warning := joinWarnings warnings },
      recordUsage today st taskId usage)

/-- `startNewTask` (cost-manager.ts lines 340-345). -/
def startNewTask (st : CostState) (taskId : String) : CostState :=
  { st with
    currentTaskId := some taskId
    taskUsage := if (st.taskUsage.lookup taskId).isNone then mapSet st.taskUsage taskId 0
      else st.taskUsage }

/-- The cost-governance portion of `handleConsultGPT5` (index.ts lines 318-344):
a pre-flight `checkAndRecordUsage` on the *estimated* usage, an early return only
when that check demands confirmation, then a second `checkAndRecordUsage` on the
*actual* usage returned by the gateway. The boolean records whether the early
confirmation return was taken. -/
def consultGPT5CostFlow (today : String) (st : CostState) (taskId : String)
    (estimated actual : TokenUsage) (confirmSpending : Bool) : CostState × Bool :=
  let pre := checkAndRecordUsage today st taskId estimated confirmSpending
  if pre.1.allowed = false ∧ pre.1.needsConfirmation = true then (pre.2, true)
  else ((checkAndRecordUsage today pre.2 taskId actual confirmSpending).2, false)

/-- Conversation metadata (types.ts / conversation.ts). -/
structure ConversationMetadata where
  created : String
  lastActive : String
  totalCost : ℚ
  tokenCount : Nat
  topic : String
  budgetLimit : Option ℚ := none
  contextLimit : Option Nat := none
deriving DecidableEq

/-- Message roles (types.ts). -/
inductive MsgRole where
  | user
  | assistant
  | developer
deriving DecidableEq

/-- A conversation message (types.ts). -/
structure ConversationMessage where
  role : MsgRole
  content : String
  timestamp : String
deriving DecidableEq

/-- A conversation (types.ts). -/
structure Conversation where
  id : String
  messages : List ConversationMessage
  metadata : ConversationMetadata
deriving DecidableEq

/-- The only spend decision made by `handleContinueConversation`
(index.ts lines 400-464): `checkAndRecordUsage(taskId, response.usage)` with
the confirmation flag left at its default `false`. The conversation — and in
particular its `metadata.budgetLimit` — is not consulted anywhere in that
handler, which is why the parameter is unused here. -/
def continueConversationCostDecision (today : String) (st : CostState)
    (_conversation : Conversation) (taskId : String) (usage : TokenUsage) :
    CheckResult × CostState :=
  checkAndRecordUsage today st taskId usage false

/- Concrete inputs used to evaluate the code on the claims' scenarios. -/

/-- Fresh CostManager state with the default limits of index.ts (daily 10,
perTask 5) after `startNewTask("task_1")`. -/
def c1State : CostState :=
  startNewTask
    { dailyUsage := [], taskUsage := [], limits := { daily := 10, perTask := 5 },
      usageHistory := [], currentTaskId := none } "task_1"

/-- A pre-flight estimated usage costing $0.10. -/
def c1Estimated : TokenUsage :=
  { inputTokens := 100, outputTokens := 1000, totalTokens := 1100, estimatedCost := 1/10 }

/-- An actual usage costing $0.20. -/
def c1Actual : TokenUsage :=
  { inputTokens := 120, outputTokens := 900, totalTokens := 1020, estimatedCost := 1/5 }

/-- C1: the pre-flight decision in `handleConsultGPT5` is made with
`checkAndRecordUsage`, which records the estimated usage whenever the check
passes: on a fresh ledger a $0.10 estimate passes pre-flight, yet the daily
total after the pre-flight step alone is already $0.10 and one history record
was appended; after the full flow (actual cost $0.20) the daily total is
$0.30, double-counting the estimate — contradicting the claim that the ledger
is unchanged by the pre-flight step and only actual usage is recorded. -/
theorem preflightCheck_records_estimated_usage :
    (checkAndRecordUsage "2026-10-12" c1State "task_1" c1Estimated false).1.allowed = true ∧
    lookupD (checkAndRecordUsage "2026-10-12" c1State "task_1" c1Estimated false).2.dailyUsage
      "2026-10-12" = 1/10 ∧
    (checkAndRecordUsage "2026-10-12" c1State "task_1" c1Estimated false).2.usageHistory.length =
      c1State.usageHistory.length + 1 ∧
    lookupD (consultGPT5CostFlow "2026-10-12" c1State "task_1" c1Estimated c1Actual
      false).1.dailyUsage "2026-10-12" = 3/10 := by
  norm_num [consultGPT5CostFlow, checkAndRecordUsage, recordUsage, startNewTask, lookupD,
    mapSet, joinWarnings, dailyWarnings, taskWarnings, c1State, c1Estimated, c1Actual,
    List.lookup]

/-- A conversation whose budget limit is $0.01 and accumulated cost $0. -/
def c4Conversation : Conversation :=
  { id := "c1"
    messages := []
    metadata := {
      created := "t0"
      lastActive := "t0"
      totalCost := 0
      tokenCount := 0
      topic := "demo"
      budgetLimit := some (1/100) } }

/-- Fresh CostManager state with the default limits of index.ts. -/
def c4State : CostState :=
  { dailyUsage := [], taskUsage := [], limits := { daily := 10, perTask := 5 },
    usageHistory := [], currentTaskId := none }

/-- A single turn costing $0.50 — 50× the conversation's remaining budget. -/
def c4Usage : TokenUsage :=
  { inputTokens := 200, outputTokens := 4000, totalTokens := 4200, estimatedCost := 1/2 }

/-- C4: `handleContinueConversation` never consults the conversation's budget:
a turn whose cost ($0.50) exceeds 10× the remaining conversation budget
($0.01 remaining) is allowed, because the only check performed is the global
`checkAndRecordUsage` — contradicting the claim that remaining conversation
budget is checked and a >10× turn is hard-blocked. -/
theorem continueConversation_ignores_conversation_budget :
    (continueConversationCostDecision "2026-10-12" c4State c4Conversation "conv_c1_1"
      c4Usage).1.allowed = true ∧
    c4Usage.estimatedCost >
      10 * ((c4Conversation.metadata.budgetLimit).getD 0 - c4Conversation.metadata.totalCost) := by
  norm_num [continueConversationCostDecision, checkAndRecordUsage, recordUsage, lookupD,
    mapSet, joinWarnings, dailyWarnings, taskWarnings, c4State, c4Conversation, c4Usage,
    List.lookup]

/-- C2: with a positive daily ceiling and no confirmation flag, a remaining
daily budget at or below 10% of the ceiling — or a prospective cost exceeding
that remainder — makes `checkAndRecordUsage` return not-allowed with a
needs-confirmation signal whose reason is the message template carrying the
exact remaining amount, leaving the ledger state unchanged; with the
confirmation flag set, the daily check never demands confirmation. -/
theorem dailyCeiling_needs_confirmation (today taskId : String) (st : CostState)
    (u : TokenUsage) (hD : 0 < st.limits.daily)
    (htrig : st.limits.daily - lookupD st.dailyUsage today ≤ st.limits.daily / 10 ∨
      u.estimatedCost > st.limits.daily - lookupD st.dailyUsage today) :
    (checkAndRecordUsage today st taskId u false).1 =
      { allowed := false
        reason := some (approachingDailyMsg (st.limits.daily - lookupD st.dailyUsage today)
          ((st.limits.daily - lookupD st.dailyUsage today) / st.limits.daily * 100)
          st.limits.daily u.estimatedCost)
        warning := none
        needsConfirmation := true } ∧
    (checkAndRecordUsage today st taskId u false).2 = st ∧
    (checkAndRecordUsage today st taskId u true).1.needsConfirmation = false := by
  have hD0 : st.limits.daily ≠ 0 := ne_of_gt hD
  have hcode : (st.limits.daily - lookupD st.dailyUsage today) / st.limits.daily * 100 ≤ 10 ∨
      u.estimatedCost > st.limits.daily - lookupD st.dailyUsage today := by
    rcases htrig with h | h
    · left
      rw [div_mul_eq_mul_div, div_le_iff₀ hD]
      linarith
    · right
      exact h
  refine ⟨?_, ?_, ?_⟩
  · simp only [checkAndRecordUsage]
    rw [if_pos ⟨hD0, trivial, hcode⟩]
  · simp only [checkAndRecordUsage]
    rw [if_pos ⟨hD0, trivial, hcode⟩]
  · simp only [checkAndRecordUsage]
    rw [if_neg (by simp)]
    split
    · rfl
    · rfl

/-- Ledger holding $9.50 of spend on 2026-10-12 against a $10.00 daily and
$2.00 per-task ceiling (the spec's near-exhaustion scenario). -/
def c2State : CostState :=
  { dailyUsage := [("2026-10-12", 19/2)], taskUsage := [],
    limits := { daily := 10, perTask := 2 }, usageHistory := [], currentTaskId := none }

/-- A request estimated at $0.30. -/
def c2Usage : TokenUsage :=
  { inputTokens := 50, outputTokens := 25, totalTokens := 75, estimatedCost := 3/10 }

/-- C2 witness: $9.50 of $10.00 spent and a $0.30 request without confirmation
is refused with needs-confirmation and the reason reporting $0.50 remaining;
with confirmation, no confirmation is demanded. -/
theorem dailyCeiling_needs_confirmation_witness :
    (0:ℚ) < c2State.limits.daily ∧
    (checkAndRecordUsage "2026-10-12" c2State "task_w" c2Usage false).1.allowed = false ∧
    (checkAndRecordUsage "2026-10-12" c2State "task_w" c2Usage false).1.needsConfirmation
      = true ∧
    (checkAndRecordUsage "2026-10-12" c2State "task_w" c2Usage false).1.reason =
      some (approachingDailyMsg (1/2) 5 10 (3/10)) ∧
    (checkAndRecordUsage "2026-10-12" c2State "task_w" c2Usage true).1.needsConfirmation
      = false := by
  have hD : (0:ℚ) < c2State.limits.daily := by norm_num [c2State]
  have htrig : c2State.limits.daily - lookupD c2State.dailyUsage "2026-10-12" ≤
      c2State.limits.daily / 10 ∨
      c2Usage.estimatedCost > c2State.limits.daily - lookupD c2State.dailyUsage "2026-10-12" :=
    Or.inl (by norm_num [c2State, lookupD, List.lookup])
  obtain ⟨h1, h2, h3⟩ := dailyCeiling_needs_confirmation "2026-10-12" "task_w" c2State c2Usage
    hD htrig
  refine ⟨hD, by rw [h1], by rw [h1], ?_, h3⟩
  rw [h1]
  norm_num [c2State, c2Usage, lookupD, List.lookup]

/-- C3: with a JS-truthy per-task ceiling, a prospective cost pushing the
task's accumulated spend beyond 10× the ceiling is blocked for every value of
the confirmation flag, and with the flag set the result carries exactly the
"extremely high task spending" reason and no needs-confirmation signal. -/
theorem taskRunaway_hard_block (today taskId : String) (st : CostState) (u : TokenUsage)
    (conf : Bool) (hP : st.limits.perTask ≠ 0)
    (hX : lookupD st.taskUsage taskId + u.estimatedCost > st.limits.perTask * 10) :
    (checkAndRecordUsage today st taskId u conf).1.allowed = false ∧
    (checkAndRecordUsage today st taskId u true).1 =
      { allowed := false
        reason := some (extremeTaskMsg (lookupD st.taskUsage taskId + u.estimatedCost)
          st.limits.perTask)
        warning := none
        needsConfirmation := false } := by
  constructor
  · simp only [checkAndRecordUsage]
    split
    · rfl
    · rw [if_pos ⟨hP, hX⟩]
  · simp only [checkAndRecordUsage]
    rw [if_neg (by simp)]
    rw [if_pos ⟨hP, hX⟩]

/-- Fresh ledger with a $2.00 per-task ceiling (the spec's runaway scenario). -/
def c3State : CostState :=
  { dailyUsage := [], taskUsage := [], limits := { daily := 10, perTask := 2 },
    usageHistory := [], currentTaskId := none }

/-- A single call whose cost comes back at $25.00 (>10× the $2.00 ceiling). -/
def c3Usage : TokenUsage :=
  { inputTokens := 1000, outputTokens := 2400, totalTokens := 3400, estimatedCost := 25 }

/-- C3 witness: a $25.00 usage against a $2.00 per-task ceiling is hard-blocked
with the "extremely high task spending" reason even with confirmation granted. -/
theorem taskRunaway_hard_block_witness :
    c3State.limits.perTask ≠ 0 ∧
    lookupD c3State.taskUsage "task_r" + c3Usage.estimatedCost > c3State.limits.perTask * 10 ∧
    (checkAndRecordUsage "2026-10-12" c3State "task_r" c3Usage true).1.allowed = false ∧
    (checkAndRecordUsage "2026-10-12" c3State "task_r" c3Usage true).1.reason =
      some (extremeTaskMsg 25 2) ∧
    (checkAndRecordUsage "2026-10-12" c3State "task_r" c3Usage true).1.needsConfirmation
      = false := by
  have hP : c3State.limits.perTask ≠ 0 := by norm_num [c3State]
  have hX : lookupD c3State.taskUsage "task_r" + c3Usage.estimatedCost >
      c3State.limits.perTask * 10 := by norm_num [c3State, c3Usage, lookupD, List.lookup]
  obtain ⟨h1, h2⟩ := taskRunaway_hard_block "2026-10-12" "task_r" c3State c3Usage true hP hX
  refine ⟨hP, hX, h1, ?_, by rw [h2]⟩
  rw [h2]
  norm_num [c3State, c3Usage, lookupD, List.lookup]

/-- C10: a zero daily limit is JS-falsy, so the daily branch of
`checkAndRecordUsage` is skipped entirely: no needs-confirmation result is
ever produced, any warning attached is the task-only warning string, and the
check allows the spend whenever the 10× per-task backstop does not fire. -/
theorem zero_daily_limit_disables_daily_check (today taskId : String) (st : CostState)
    (u : TokenUsage) (conf : Bool) (h0 : st.limits.daily = 0) :
    (checkAndRecordUsage today st taskId u conf).1.needsConfirmation = false ∧
    ((checkAndRecordUsage today st taskId u conf).1.warning = none ∨
      (checkAndRecordUsage today st taskId u conf).1.warning =
        joinWarnings (taskWarnings st.limits.perTask (lookupD st.taskUsage taskId)
          u.estimatedCost)) ∧
    ((st.limits.perTask = 0 ∨
        lookupD st.taskUsage taskId + u.estimatedCost ≤ st.limits.perTask * 10) →
      (checkAndRecordUsage today st taskId u conf).1.allowed = true) := by
  simp only [checkAndRecordUsage]
  rw [if_neg (fun hc => hc.1 h0)]
  split
  · next hc =>
    refine ⟨rfl, Or.inl rfl, fun hor => ?_⟩
    rcases hor with hp | hle
    · exact absurd hp hc.1
    · exact absurd hc.2 (not_lt.mpr hle)
  · refine ⟨rfl, Or.inr ?_, fun _ => rfl⟩
    have hdw : dailyWarnings st.limits.daily (lookupD st.dailyUsage today) u.estimatedCost
        = [] := by
      rw [h0]
      simp [dailyWarnings]
    show joinWarnings (dailyWarnings st.limits.daily (lookupD st.dailyUsage today)
      u.estimatedCost ++ taskWarnings st.limits.perTask (lookupD st.taskUsage taskId)
      u.estimatedCost) = _
    rw [hdw, List.nil_append]

/-- Ledger with a zero daily limit, $50 already spent today, and a $2.00
per-task ceiling. -/
def c10State : CostState :=
  { dailyUsage := [("2026-10-12", 50)], taskUsage := [],
    limits := { daily := 0, perTask := 2 }, usageHistory := [], currentTaskId := none }

/-- A request costing $0.10. -/
def c10Usage : TokenUsage :=
  { inputTokens := 10, outputTokens := 10, totalTokens := 20, estimatedCost := 1/10 }

/-- C10 witness: with the daily limit set to 0 and $50 already spent today, a
$0.10 request without confirmation is allowed outright — no needs-confirmation
result. -/
theorem zero_daily_limit_disables_daily_check_witness :
    c10State.limits.daily = 0 ∧
    (checkAndRecordUsage "2026-10-12" c10State "task_z" c10Usage false).1.needsConfirmation
      = false ∧
    (checkAndRecordUsage "2026-10-12" c10State "task_z" c10Usage false).1.allowed = true := by
  have h0 : c10State.limits.daily = 0 := by norm_num [c10State]
  obtain ⟨h1, h2, h3⟩ := zero_daily_limit_disables_daily_check "2026-10-12" "task_z" c10State
    c10Usage false h0
  exact ⟨h0, h1, h3 (Or.inr (by norm_num [c10State, c10Usage, lookupD, List.lookup]))⟩

/-- The budget-to-token computation inside `calculateMaxTokensFromBudget`
(index.ts lines 121-143), as a function of the remaining daily budget: 30% of
the budget is converted at the input rate, 70% at the output rate, the prompt
estimate is added, and the result is floored at the 5000-token minimum. -/
def maxTokensFromRemaining (remainingBudget : ℚ) (promptTokens : Nat) : ℤ :=
  let inputBudget := remainingBudget * (0.3 : ℚ)
  let outputBudget := remainingBudget * (0.7 : ℚ)
  let maxInputFromBudget := ⌊inputBudget / (0.00125 : ℚ) * 1000⌋
  let maxOutputFromBudget := ⌊outputBudget / (0.01 : ℚ) * 1000⌋
  let maxTotalTokens := maxInputFromBudget + maxOutputFromBudget + (promptTokens : ℤ)
  max 5000 maxTotalTokens

/-- `calculateMaxTokensFromBudget` (index.ts lines 121-143): the remaining
daily budget is `Math.max(0, limits.daily - usage.daily)` from the daily
report, fed into the conversion above. -/
def calculateMaxTokensFromBudget (dailyLimit dailyUsed : ℚ) (promptTokens : Nat) : ℤ :=
  maxTokensFromRemaining (max 0 (dailyLimit - dailyUsed)) promptTokens

lemma maxTokensFromRemaining_mono {r1 r2 : ℚ} (p : Nat) (h : r1 ≤ r2) :
    maxTokensFromRemaining r1 p ≤ maxTokensFromRemaining r2 p := by
  unfold maxTokensFromRemaining
  refine max_le_max le_rfl (add_le_add (add_le_add ?_ ?_) le_rfl)
  · exact Int.floor_le_floor (by gcongr)
  · exact Int.floor_le_floor (by gcongr)

lemma maxTokensFromRemaining_ge (r : ℚ) (p : Nat) :
    (5000 : ℤ) ≤ maxTokensFromRemaining r p :=
  le_max_left _ _

/-- C6: for a fixed prompt estimate, `calculateMaxTokensFromBudget` is
non-decreasing in the remaining daily budget `max 0 (limit - used)`, and it
never returns less than the 5000-token minimum — in particular not when the
remaining budget is zero. -/
theorem calculateMaxTokensFromBudget_monotone_floor (p : Nat) (d1 u1 d2 u2 : ℚ)
    (h : max 0 (d1 - u1) ≤ max 0 (d2 - u2)) :
    calculateMaxTokensFromBudget d1 u1 p ≤ calculateMaxTokensFromBudget d2 u2 p ∧
    (5000 : ℤ) ≤ calculateMaxTokensFromBudget d1 u1 p ∧
    (5000 : ℤ) ≤ maxTokensFromRemaining 0 p := by
  exact ⟨maxTokensFromRemaining_mono p h, maxTokensFromRemaining_ge _ p,
    maxTokensFromRemaining_ge 0 p⟩

/-- C6 witness: a $0-remaining budget (limit 10, used 12) versus a $5-remaining
budget (limit 10, used 5) at a 100-token prompt estimate. -/
theorem calculateMaxTokensFromBudget_monotone_floor_witness :
    max 0 ((10 : ℚ) - 12) ≤ max 0 ((10 : ℚ) - 5) ∧
    calculateMaxTokensFromBudget 10 12 100 ≤ calculateMaxTokensFromBudget 10 5 100 ∧
    (5000 : ℤ) ≤ calculateMaxTokensFromBudget 10 12 100 ∧
    (5000 : ℤ) ≤ maxTokensFromRemaining 0 100 := by
  have h : max 0 ((10 : ℚ) - 12) ≤ max 0 ((10 : ℚ) - 5) := by norm_num
  obtain ⟨h1, h2, h3⟩ := calculateMaxTokensFromBudget_monotone_floor 100 10 12 10 5 h
  exact ⟨h, h1, h2, h3⟩

/-- A provider error as observed by the fallback loop of openai-client.ts:
whether its message contains the substring "model", and its HTTP status. -/
structure JsError where
  messageContainsModel : Bool
  status : Option Nat
deriving DecidableEq

/-- Outcome of one (retry-wrapped) chat-completions attempt against a model. -/
inductive AttemptOutcome where
  | succeeded (text : String) (usage : TokenUsage)
  | failed (e : JsError)
deriving DecidableEq

/-- Result of `fallbackToChatCompletions`. -/
inductive FallbackResult where
  | completed (modelUsed : String) (text : String) (usage : TokenUsage)
  | raised (e : JsError)
  | noCompatibleModel
deriving DecidableEq

/-- The catch-block policy of the fallback loop (openai-client.ts lines
172-181): an error whose message contains "model" means try the next model;
otherwise a 429 or 5xx status also continues to the next model; any other
error is rethrown. -/
def tryNextModel (e : JsError) : Bool :=
  e.messageContainsModel ||
    (match e.status with
     | some s => s == 429 || 500 ≤ s
     | none => false)

/-- The model loop of `fallbackToChatCompletions` (openai-client.ts lines
139-186, non-streaming path), with the per-model (retry-wrapped) call outcome
supplied as a function. Returns the list of models attempted, in order, and
the final result; an empty loop result is the terminal
"No compatible model available" error (line 185). -/
def fallbackToChatCompletions (outcome : String → AttemptOutcome) :
    List String → List String × FallbackResult
  | [] => ([], FallbackResult.noCompatibleModel)
  | m :: rest =>
    match outcome m with
    | AttemptOutcome.succeeded text usage => ([m], FallbackResult.completed m text usage)
    | AttemptOutcome.failed e =>
      if tryNextModel e then
        let next := fallbackToChatCompletions outcome rest
        (m :: next.1, next.2)
      else ([m], FallbackResult.raised e)

/-- C5: if every model in the fallback list fails with a model-not-available
error (message containing "model"), the loop attempts each model in list
order exactly once and ends in the single terminal "No compatible model
available" error. -/
theorem fallback_exhaustion (outcome : String → AttemptOutcome) (models : List String)
    (h : ∀ m ∈ models, ∃ e, outcome m = AttemptOutcome.failed e ∧
      e.messageContainsModel = true) :
    fallbackToChatCompletions outcome models = (models, FallbackResult.noCompatibleModel) := by
  induction models with
  | nil => rfl
  | cons m rest ih =>
    obtain ⟨e, he, hm⟩ := h m (List.mem_cons_self m rest)
    have hrest := ih (fun x hx => h x (List.mem_cons_of_mem m hx))
    simp only [fallbackToChatCompletions, he, hrest]
    rw [if_pos (by simp [tryNextModel, hm])]

/-- The default fallback model list of `getFallbackModels` (openai-client.ts
line 286). -/
def defaultFallbackModels : List String :=
  ["gpt-4o", "gpt-4o-mini", "gpt-4-turbo-preview", "gpt-4-turbo", "gpt-4", "gpt-3.5-turbo"]

/-- An outcome in which every model fails with a 404 whose message mentions
"model" (model-not-available). -/
def modelNotAvailableOutcome : String → AttemptOutcome :=
  fun _ => AttemptOutcome.failed { messageContainsModel := true, status := some 404 }

/-- C5 witness: against the default fallback list with every model
unavailable, the loop attempts exactly the six models in order and raises the
terminal "no compatible model" error. -/
theorem fallback_exhaustion_witness :
    fallbackToChatCompletions modelNotAvailableOutcome defaultFallbackModels =
      (defaultFallbackModels, FallbackResult.noCompatibleModel) :=
  fallback_exhaustion modelNotAvailableOutcome defaultFallbackModels
    (fun _ _ => ⟨{ messageContainsModel := true, status := some 404 }, rfl, rfl⟩)

/-- The `usage` object of a provider response (`response.usage || {}`), with
every field optional: the Responses API and the chat-completions API use
different field names for the same counts. -/
structure ProviderUsage where
  prompt_tokens : Option Nat := none
  completion_tokens : Option Nat := none
  input_tokens : Option Nat := none
  output_tokens : Option Nat := none
  reasoning_tokens : Option Nat := none
  total_tokens : Option Nat := none
deriving DecidableEq

/-- JS `a || d` on an optional numeric field: an absent or zero value falls
through to the default. -/
def jsNumOr (a : Option Nat) (d : Nat) : Nat :=
  match a with
  | some n => if n = 0 then d else n
  | none => d

/-- A pricing-table entry (openai-client.ts lines 5-18). -/
structure Pricing where
  input : ℚ
  output : ℚ
  cached : Option ℚ := none
  reasoning : Option ℚ := none
deriving DecidableEq

/-- The gpt-5 entry of the pricing table. -/
def gpt5Pricing : Pricing :=
  { input := 0.00125, output := 0.01, cached := some 0.000125, reasoning := some 0.01 }

/-- JS `Number(x.toFixed(4))`: round to 4 decimal places (ties away from
zero after the sign split, as toFixed renders). -/
def jsRoundTo4 (q : ℚ) : ℚ :=
  if q < 0 then -(((⌊-q * 10 ^ 4 + 1/2⌋ : ℤ) : ℚ) / 10 ^ 4)
  else ((⌊q * 10 ^ 4 + 1/2⌋ : ℤ) : ℚ) / 10 ^ 4

/-- `calculateCost` (openai-client.ts lines 236-245). -/
def calculateCost (pricing : Pricing) (u : ProviderUsage) : ℚ :=
  let inputCost := (jsNumOr u.prompt_tokens (jsNumOr u.input_tokens 0) : ℚ) *
    pricing.input / 1000
  let outputCost := (jsNumOr u.completion_tokens (jsNumOr u.output_tokens 0) : ℚ) *
    pricing.output / 1000
  let reasoningRate := pricing.reasoning.getD pricing.output
  let reasoningCost := (jsNumOr u.reasoning_tokens 0 : ℚ) * reasoningRate / 1000
  jsRoundTo4 (inputCost + outputCost + reasoningCost)

/-- `extractUsage` (openai-client.ts lines 224-234): field-name normalization
with JS `||` defaults; `totalTokens` is copied from `total_tokens || 0`. -/
def extractUsage (pricing : Pricing) (u : ProviderUsage) : TokenUsage :=
  { inputTokens := jsNumOr u.prompt_tokens (jsNumOr u.input_tokens 0)
    outputTokens := jsNumOr u.completion_tokens (jsNumOr u.output_tokens 0)
    reasoningTokens := some (jsNumOr u.reasoning_tokens 0)
    totalTokens := jsNumOr u.total_tokens 0
    estimatedCost := calculateCost pricing u }

/-- `calculateCostForModel` (openai-client.ts lines 247-263). -/
def calculateCostForModel (pricing : Pricing) (u : ProviderUsage) : ℚ :=
  let inputCost := (jsNumOr u.prompt_tokens 0 : ℚ) * pricing.input / 1000
  let outputCost := (jsNumOr u.completion_tokens 0 : ℚ) * pricing.output / 1000
  jsRoundTo4 (inputCost + outputCost)

/-- The TokenUsage built on the fallback path (openai-client.ts lines
188-200): chat-completions field names only, `totalTokens` again copied from
`total_tokens || 0`. -/
def fallbackUsage (pricing : Pricing) (u : ProviderUsage) : TokenUsage :=
  { inputTokens := jsNumOr u.prompt_tokens 0
    outputTokens := jsNumOr u.completion_tokens 0
    reasoningTokens := none
    totalTokens := jsNumOr u.total_tokens 0
    estimatedCost := calculateCostForModel pricing u }

/-- A provider usage reporting 5 prompt and 7 completion tokens but no
`total_tokens` field. -/
def c8Inconsistent : ProviderUsage :=
  { prompt_tokens := some 5, completion_tokens := some 7 }

/-- C8 counterexample: on a response reporting 5 prompt and 7 completion
tokens but omitting `total_tokens`, `extractUsage` returns inputTokens 5,
outputTokens 7 and totalTokens 0 — `totalTokens = inputTokens + outputTokens`
fails, and likewise on the fallback path. -/
theorem extractUsage_total_mismatch :
    (extractUsage gpt5Pricing c8Inconsistent).inputTokens = 5 ∧
    (extractUsage gpt5Pricing c8Inconsistent).outputTokens = 7 ∧
    (extractUsage gpt5Pricing c8Inconsistent).totalTokens = 0 ∧
    ¬((extractUsage gpt5Pricing c8Inconsistent).totalTokens =
      (extractUsage gpt5Pricing c8Inconsistent).inputTokens +
        (extractUsage gpt5Pricing c8Inconsistent).outputTokens) ∧
    ¬((fallbackUsage gpt5Pricing c8Inconsistent).totalTokens =
      (fallbackUsage gpt5Pricing c8Inconsistent).inputTokens +
        (fallbackUsage gpt5Pricing c8Inconsistent).outputTokens) := by
  refine ⟨rfl, rfl, rfl, ?_, ?_⟩ <;> decide

/-- C8 amended: `totalTokens` is copied verbatim from the provider's
`total_tokens || 0`; the invariant `totalTokens = inputTokens + outputTokens`
therefore holds exactly when the provider reports a total equal to the sum of
its reported input and output fields (under the same `||` defaulting). -/
theorem usage_total_eq_sum_of_provider_consistent (p : Pricing) (u : ProviderUsage)
    (h : jsNumOr u.total_tokens 0 =
      jsNumOr u.prompt_tokens (jsNumOr u.input_tokens 0) +
        jsNumOr u.completion_tokens (jsNumOr u.output_tokens 0))
    (hf : jsNumOr u.total_tokens 0 = jsNumOr u.prompt_tokens 0 + jsNumOr u.completion_tokens 0) :
    (extractUsage p u).totalTokens = jsNumOr u.total_tokens 0 ∧
    (fallbackUsage p u).totalTokens = jsNumOr u.total_tokens 0 ∧
    (extractUsage p u).totalTokens =
      (extractUsage p u).inputTokens + (extractUsage p u).outputTokens ∧
    (fallbackUsage p u).totalTokens =
      (fallbackUsage p u).inputTokens + (fallbackUsage p u).outputTokens :=
  ⟨rfl, rfl, h, hf⟩

/-- A provider usage consistently reporting 5 + 7 = 12 tokens. -/
def c8Consistent : ProviderUsage :=
  { prompt_tokens := some 5, completion_tokens := some 7, total_tokens := some 12 }

/-- C8 amended witness: on a response consistently reporting prompt 5,
completion 7, total 12, both the primary-path and fallback-path usages
satisfy the total = input + output invariant. -/
theorem usage_total_eq_sum_of_provider_consistent_witness :
    (extractUsage gpt5Pricing c8Consistent).totalTokens =
      (extractUsage gpt5Pricing c8Consistent).inputTokens +
        (extractUsage gpt5Pricing c8Consistent).outputTokens ∧
    (fallbackUsage gpt5Pricing c8Consistent).totalTokens =
      (fallbackUsage gpt5Pricing c8Consistent).inputTokens +
        (fallbackUsage gpt5Pricing c8Consistent).outputTokens := by
  obtain ⟨-, -, h3, h4⟩ := usage_total_eq_sum_of_provider_consistent gpt5Pricing c8Consistent
    (by decide) (by decide)
  exact ⟨h3, h4⟩

/-- JS truthiness of an optional string: `undefined` and `''` are falsy. -/
def jsTruthyStr (o : Option String) : Bool :=
  match o with
  | some s => !(s == "")
  | none => false

/-- JS `Array.prototype.slice(k)` with a single (possibly negative) integer
argument: a negative start counts back from the end, clamped at 0; `-0` is
`0` and yields the whole array. -/
def jsSliceFrom {α : Type} (l : List α) (k : ℤ) : List α :=
  if k < 0 then l.drop (max ((l.length : ℤ) + k) 0).toNat
  else l.drop (min k (l.length : ℤ)).toNat

/-- The initial message list built by `startConversation` (conversation.ts
lines 19-52): a pinned developer message when (truthy) instructions are
given. -/
def startConversationMessages (instructions : Option String) (now : String) :
    List ConversationMessage :=
  if jsTruthyStr instructions then
    [{ role := MsgRole.developer, content := instructions.getD "", timestamp := now }]
  else []

/-- `addMessage` (conversation.ts lines 54-85) acting on the message list:
when the list has reached the cap, trim — keeping `messages[0]` plus the last
`max - 2` entries if the first message is a developer instruction, else just
the last `max - 1` entries — then push the new message. -/
def addMessage (maxMessagesPerConversation : Nat) (msgs : List ConversationMessage)
    (role : MsgRole) (content : String) (now : String) : List ConversationMessage :=
  let trimmed :=
    if msgs.length ≥ maxMessagesPerConversation then
      if (msgs.head?.map ConversationMessage.role) = some MsgRole.developer then
        msgs.take 1 ++ jsSliceFrom msgs (-((maxMessagesPerConversation : ℤ) - 2))
      else jsSliceFrom msgs (-((maxMessagesPerConversation : ℤ) - 1))
    else msgs
  trimmed ++ [{ role := role, content := content, timestamp := now }]

lemma addMessage_head_pinned (maxM : Nat) (msgs : List ConversationMessage)
    (m : ConversationMessage) (hm : msgs.head? = some m) (hd : m.role = MsgRole.developer)
    (role : MsgRole) (content now : String) :
    (addMessage maxM msgs role content now).head? = some m := by
  obtain ⟨rest, rfl⟩ : ∃ rest, msgs = m :: rest := by
    cases msgs with
    | nil => simp at hm
    | cons a rest =>
      refine ⟨rest, ?_⟩
      have ha : a = m := by simpa using hm
      rw [ha]
  simp only [addMessage]
  split
  · rw [if_pos (by simp [hd])]
    simp
  · simp

lemma foldl_addMessage_head_pinned (maxM : Nat) (m : ConversationMessage)
    (hd : m.role = MsgRole.developer) (calls : List (MsgRole × String × String)) :
    ∀ msgs : List ConversationMessage, msgs.head? = some m →
      (calls.foldl (fun acc c => addMessage maxM acc c.1 c.2.1 c.2.2) msgs).head? = some m := by
  induction calls with
  | nil => intro msgs h; exact h
  | cons c cs ih =>
    intro msgs h
    exact ih _ (addMessage_head_pinned maxM msgs m h hd c.1 c.2.1 c.2.2)

/-- C9: a conversation started with a non-empty developer instruction keeps
that instruction message at index 0 of its message list after any sequence of
`addMessage` calls, for any history cap — including sequences long enough to
trigger trimming. -/
theorem developer_message_pinned (maxM : Nat) (instr : String) (hi : instr ≠ "")
    (now0 : String) (calls : List (MsgRole × String × String)) :
    (calls.foldl (fun acc c => addMessage maxM acc c.1 c.2.1 c.2.2)
        (startConversationMessages (some instr) now0)).head? =
      some { role := MsgRole.developer, content := instr, timestamp := now0 } := by
  have hstart : startConversationMessages (some instr) now0 =
      [{ role := MsgRole.developer, content := instr, timestamp := now0 }] := by
    simp [startConversationMessages, jsTruthyStr, hi]
  rw [hstart]
  exact foldl_addMessage_head_pinned maxM _ rfl calls _ rfl

/-- C9 witness: cap 3, instruction "Be concise.", six messages appended — the
list is trimmed repeatedly, yet index 0 is still the developer instruction. -/
theorem developer_message_pinned_witness :
    ((([(MsgRole.user, "q1", "t1"), (MsgRole.assistant, "a1", "t2"),
        (MsgRole.user, "q2", "t3"), (MsgRole.assistant, "a2", "t4"),
        (MsgRole.user, "q3", "t5"), (MsgRole.assistant, "a3", "t6")] :
          List (MsgRole × String × String)).foldl
        (fun acc c => addMessage 3 acc c.1 c.2.1 c.2.2)
        (startConversationMessages (some "Be concise.") "t0")).head? =
      some { role := MsgRole.developer, content := "Be concise.", timestamp := "t0" }) ∧
    "Be concise." ≠ "" :=
  ⟨developer_message_pinned 3 "Be concise." (by decide) "t0" _, by decide⟩

/-- Boolean substring test on character lists (JS `String.prototype.includes`). -/
def listIsInfixOf (needle : List Char) : List Char → Bool
  | [] => needle.isEmpty
  | c :: rest => needle.isPrefixOf (c :: rest) || listIsInfixOf needle rest

/-- The code heuristic of `estimateTokenCount` (index.ts line 116): text
containing "function", "class" or "import". -/
def hasCodeKeyword (text : List Char) : Bool :=
  listIsInfixOf "function".data text || listIsInfixOf "class".data text ||
    listIsInfixOf "import".data text

/-- `estimateTokenCount` (index.ts lines 111-118): `Math.ceil(length / avg)`
with 3 chars per token for code-like text and 4 otherwise. -/
def estimateTokenCount (text : List Char) : Nat :=
  let avgCharsPerToken := if hasCodeKeyword text then 3 else 4
  (text.length + (avgCharsPerToken - 1)) / avgCharsPerToken

/-- The truncation marker appended by `truncateText` (index.ts line 159). -/
def truncMarker : List Char :=
  "\n\n[... content truncated to prevent token waste - file too large for current task budget ...]".data

/-- `truncateText` (index.ts lines 154-160): return the text unchanged when
its estimate fits, else cut to `maxTokens * 4` characters and append the
marker. -/
def truncateText (text : List Char) (maxTokens : ℤ) : List Char :=
  if (estimateTokenCount text : ℤ) ≤ maxTokens then text
  else text.take (maxTokens * 4).toNat ++ truncMarker

/-- An entry of `meta.resources` as read by `processResources`. -/
structure JsResource where
  name : Option (List Char) := none
  uri : Option (List Char) := none
  text : Option (List Char) := none
  content : Option (List Char) := none
deriving DecidableEq

/-- JS truthiness of an optional string field (absent or empty is falsy). -/
def jsTruthyChars (o : Option (List Char)) : Bool :=
  match o with
  | some s => !s.isEmpty
  | none => false

/-- `resource.name || resource.uri || 'file'` (index.ts line 175). -/
def resourceLabel (name uri : Option (List Char)) : List Char :=
  if jsTruthyChars name then name.getD []
  else if jsTruthyChars uri then uri.getD []
  else "file".data

/-- The per-resource header of the digest (index.ts line 175). -/
def resHeader (name uri : Option (List Char)) : List Char :=
  "\n--- Resource: ".data ++ resourceLabel name uri ++ " ---\n".data

/-- The per-resource footer of the digest (index.ts line 176). -/
def resFooter : List Char :=
  "\n--- End Resource ---\n".data

/-- The marker appended when the token budget is exhausted mid-list
(index.ts line 186). -/
def resourcesTruncatedMarker : List Char :=
  "\n[... additional resources truncated due to token limits ...]\n".data

/-- The marker appended when the content loop runs out of budget
(index.ts line 214). -/
def contentTruncatedMarker : List Char :=
  "\n[... additional content truncated due to token limits ...]\n".data

/-- Header/footer of the typed-content branch (index.ts lines 219-220). -/
def attachedContentHeader : List Char :=
  "\n--- Attached Content ---\n".data

/-- Footer of the typed-content branch. -/
def endContentFooter : List Char :=
  "\n--- End Content ---\n".data

/-- The `meta.resources` loop of `processResources` (index.ts lines 172-207):
per resource, a text (or content) field is wrapped in header/footer and
truncated to the remaining budget if more than 100 tokens remain, otherwise a
truncation marker is appended and the loop breaks; uri-only entries append a
file-reference line unconditionally. -/
def processResourceList (maxTokens : ℤ) : List JsResource → List Char → List Char
  | [], acc => acc
  | r :: rest, acc =>
    if jsTruthyChars r.text then
      let header := resHeader r.name r.uri
      let usedTokens := estimateTokenCount acc
      let availableTokens := maxTokens - usedTokens - estimateTokenCount (header ++ resFooter)
      if availableTokens > 100 then
        processResourceList maxTokens rest
          (acc ++ header ++ truncateText (r.text.getD []) availableTokens ++ resFooter)
      else acc ++ resourcesTruncatedMarker
    else if jsTruthyChars r.content then
      let header := resHeader r.name r.uri
      let usedTokens := estimateTokenCount acc
      let availableTokens := maxTokens - usedTokens - estimateTokenCount (header ++ resFooter)
      if availableTokens > 100 then
        processResourceList maxTokens rest
          (acc ++ header ++ truncateText (r.content.getD []) availableTokens ++ resFooter)
      else acc ++ resourcesTruncatedMarker
    else if jsTruthyChars r.uri then
      processResourceList maxTokens rest
        (acc ++ "\n--- File Reference: ".data ++ r.uri.getD [] ++ " ---\n".data)
    else processResourceList maxTokens rest acc

/-- An entry of `meta.content` as read by `processResources`. -/
structure JsContentItem where
  type : List Char := []
  text : Option (List Char) := none
  resource : Option JsResource := none
deriving DecidableEq

/-- The `meta.content` loop of `processResources` (index.ts lines 210-244). -/
def processContentList (maxTokens : ℤ) : List JsContentItem → List Char → List Char
  | [], acc => acc
  | item :: rest, acc =>
    let usedTokens := estimateTokenCount acc
    if (usedTokens : ℤ) ≥ maxTokens - 100 then acc ++ contentTruncatedMarker
    else if item.type = "text".data ∧ jsTruthyChars item.text then
      let availableTokens := maxTokens - usedTokens -
        estimateTokenCount (attachedContentHeader ++ endContentFooter)
      if availableTokens > 100 then
        processContentList maxTokens rest
          (acc ++ attachedContentHeader ++ truncateText (item.text.getD []) availableTokens ++
            endContentFooter)
      else processContentList maxTokens rest acc
    else if item.type = "resource".data ∧ item.resource.isSome then
      let res := item.resource.getD {}
      let header := resHeader res.name res.uri
      let availableTokens := maxTokens - usedTokens - estimateTokenCount (header ++ resFooter)
      if availableTokens > 100 then
        if jsTruthyChars res.text then
          processContentList maxTokens rest
            (acc ++ header ++ truncateText (res.text.getD []) availableTokens ++ resFooter)
        else if jsTruthyChars res.content then
          processContentList maxTokens rest
            (acc ++ header ++ truncateText (res.content.getD []) availableTokens ++ resFooter)
        else processContentList maxTokens rest acc
      else processContentList maxTokens rest acc
    else processContentList maxTokens rest acc

/-- The `meta` container passed to `processResources`: any of the three
recognized shapes may be present. -/
structure ResourceMeta where
  resources : Option (List JsResource) := none
  content : Option (List JsContentItem) := none
  text : Option (List Char) := none
deriving DecidableEq

/-- `processResources` (index.ts lines 163-263): run the resources loop, then
the content loop, then — only if the digest is still empty — the flat-text
fallback with its own budget check. -/
def processResources (meta : ResourceMeta) (maxTokens : ℤ) : List Char :=
  let rc :=
    match meta.resources with
    | some rs => processResourceList maxTokens rs []
    | none => []
  let rc :=
    match meta.content with
    | some items => processContentList maxTokens items rc
    | none => rc
  if rc.isEmpty ∧ jsTruthyChars meta.text then
    let availableTokens := maxTokens -
      estimateTokenCount (attachedContentHeader ++ endContentFooter)
    if availableTokens > 100 then
      attachedContentHeader ++ truncateText (meta.text.getD []) availableTokens ++
        endContentFooter
    else rc
  else rc

/-- A code-like resource text: the keyword "function" followed by 592 filler
characters (600 characters total, estimated at 3 chars/token). -/
def c7Text : List Char := "function".data ++ List.replicate 592 'a'

/-- A resource carrying only that text. -/
def c7Resource : JsResource := { text := some c7Text }

/-- A resources-shaped meta payload with the single code-like resource. -/
def c7Meta : ResourceMeta := { resources := some [c7Resource] }

set_option maxRecDepth 10000 in
/-- C7 counterexample: with ceiling T = 120, the digest for `c7Meta` is
estimated at 191 tokens, which exceeds T plus the entire header/footer,
truncation-marker and omission-marker overhead of the resource (51 tokens):
`truncateText` cuts at 4 characters per token, but the code-like digest is
re-estimated at 3 characters per token, so the overshoot grows with T instead
of being bounded by one resource's overhead. -/
theorem processResources_token_bound_counterexample :
    120 + estimateTokenCount (resHeader c7Resource.name c7Resource.uri ++ resFooter ++
      truncMarker ++ resourcesTruncatedMarker) <
    estimateTokenCount (processResources c7Meta 120) := by
  decide

lemma length_le_four_estimate (s : List Char) : s.length ≤ 4 * estimateTokenCount s := by
  simp only [estimateTokenCount]
  split_ifs <;> omega

lemma three_mul_estimate_le (s : List Char) : 3 * estimateTokenCount s ≤ s.length + 2 := by
  simp only [estimateTokenCount]
  split_ifs <;> omega

lemma truncateText_length_le (t : List Char) (a : ℤ) (ha : 0 ≤ a) :
    ((truncateText t a).length : ℤ) ≤ 4 * a + truncMarker.length := by
  have htm : (0:ℤ) ≤ (truncMarker.length : ℤ) := Int.ofNat_nonneg _
  unfold truncateText
  split_ifs with h
  · have h1 : (t.length : ℤ) ≤ 4 * (estimateTokenCount t : ℤ) := by
      exact_mod_cast length_le_four_estimate t
    linarith
  · rw [List.length_append, List.length_take]
    have htn : ((a * 4).toNat : ℤ) = a * 4 := Int.toNat_of_nonneg (by positivity)
    have hmin : ((min (a * 4).toNat t.length : Nat) : ℤ) ≤ ((a * 4).toNat : ℤ) := by
      exact_mod_cast Nat.min_le_left _ _
    push_cast
    push_cast at hmin
    linarith

lemma truncatedAppend_length_bound (T : ℤ) (acc header footer txt : List Char)
    (havail : T - (estimateTokenCount acc : ℤ) -
      (estimateTokenCount (header ++ footer) : ℤ) > 100) :
    ((acc ++ header ++ truncateText txt (T - (estimateTokenCount acc : ℤ) -
      (estimateTokenCount (header ++ footer) : ℤ)) ++ footer).length : ℤ) ≤
      4 * T + truncMarker.length := by
  have ha0 : (0:ℤ) ≤ T - (estimateTokenCount acc : ℤ) -
      (estimateTokenCount (header ++ footer) : ℤ) := by linarith
  have htr := truncateText_length_le txt _ ha0
  have h5 : (acc.length : ℤ) ≤ 4 * (estimateTokenCount acc : ℤ) := by
    exact_mod_cast length_le_four_estimate acc
  have h4 : ((header.length : ℤ) + (footer.length : ℤ)) ≤
      4 * (estimateTokenCount (header ++ footer) : ℤ) := by
    have := length_le_four_estimate (header ++ footer)
    rw [List.length_append] at this
    exact_mod_cast this
  simp only [List.length_append]
  push_cast
  linarith

lemma processResourceList_length_le (T : ℤ) (rs : List JsResource) :
    ∀ acc : List Char,
      (∀ r ∈ rs, jsTruthyChars r.text = true ∨ jsTruthyChars r.content = true ∨
        jsTruthyChars r.uri = false) →
      (acc.length : ℤ) ≤ 4 * T + truncMarker.length →
      ((processResourceList T rs acc).length : ℤ) ≤
        4 * T + truncMarker.length + resourcesTruncatedMarker.length := by
  have hrtm : (0:ℤ) ≤ (resourcesTruncatedMarker.length : ℤ) := Int.ofNat_nonneg _
  induction rs with
  | nil =>
    intro acc _ hacc
    simp only [processResourceList]
    linarith
  | cons r rest ih =>
    intro acc hr hacc
    have hr' : ∀ x ∈ rest, jsTruthyChars x.text = true ∨ jsTruthyChars x.content = true ∨
        jsTruthyChars x.uri = false :=
      fun x hx => hr x (List.mem_cons_of_mem r hx)
    simp only [processResourceList]
    split_ifs with h1 h2 h3 h4 h5
    · exact ih _ hr' (truncatedAppend_length_bound T acc _ _ _ h2)
    · rw [List.length_append]
      push_cast
      linarith
    · exact ih _ hr' (truncatedAppend_length_bound T acc _ _ _ h4)
    · rw [List.length_append]
      push_cast
      linarith
    · rcases hr r (List.mem_cons_self r rest) with hx | hx | hx
      · exact absurd hx (by simp [h1])
      · exact absurd hx (by simp [h3])
      · exact absurd hx (by simp [h5])
    · exact ih _ hr' hacc

lemma processContentList_length_le (T : ℤ) (items : List JsContentItem) :
    ∀ acc : List Char,
      ((processContentList T items acc).length : ℤ) ≤
        max (acc.length : ℤ) (4 * T + truncMarker.length) +
          contentTruncatedMarker.length := by
  have hctm : (0:ℤ) ≤ (contentTruncatedMarker.length : ℤ) := Int.ofNat_nonneg _
  induction items with
  | nil =>
    intro acc
    simp only [processContentList]
    have h := le_max_left ((acc.length : ℤ)) (4 * T + truncMarker.length)
    linarith
  | cons item rest ih =>
    intro acc
    have extend : ∀ acc2 : List Char, (acc2.length : ℤ) ≤ 4 * T + truncMarker.length →
        ((processContentList T rest acc2).length : ℤ) ≤
          max (acc.length : ℤ) (4 * T + truncMarker.length) +
            contentTruncatedMarker.length := by
      intro acc2 h2
      refine le_trans (ih acc2) ?_
      rw [max_eq_right h2]
      have h4 := le_max_right ((acc.length : ℤ)) (4 * T + truncMarker.length)
      linarith
    simp only [processContentList]
    split_ifs with h1 h2 h3 h4 h5 h6 h7
    · rw [List.length_append]
      have h := le_max_left ((acc.length : ℤ)) (4 * T + truncMarker.length)
      push_cast
      linarith
    · exact extend _ (truncatedAppend_length_bound T acc _ _ _ h3)
    · exact ih acc
    · exact extend _ (truncatedAppend_length_bound T acc _ _ _ h5)
    · exact extend _ (truncatedAppend_length_bound T acc _ _ _ h5)
    · exact ih acc
    · exact ih acc
    · exact ih acc

lemma flatText_length_bound (T : ℤ) (t : List Char)
    (havail : T - (estimateTokenCount (attachedContentHeader ++ endContentFooter) : ℤ) > 100) :
    ((attachedContentHeader ++ truncateText t (T -
      (estimateTokenCount (attachedContentHeader ++ endContentFooter) : ℤ)) ++
      endContentFooter).length : ℤ) ≤ 4 * T + truncMarker.length := by
  have ha0 : (0:ℤ) ≤ T -
      (estimateTokenCount (attachedContentHeader ++ endContentFooter) : ℤ) := by linarith
  have htr := truncateText_length_le t _ ha0
  have h4 : ((attachedContentHeader.length : ℤ) + (endContentFooter.length : ℤ)) ≤
      4 * (estimateTokenCount (attachedContentHeader ++ endContentFooter) : ℤ) := by
    have h := length_le_four_estimate (attachedContentHeader ++ endContentFooter)
    rw [List.length_append] at h
    exact_mod_cast h
  simp only [List.length_append]
  push_cast
  linarith

/-- C7 amended: for any payload whose resource-list entries are not uri-only
(the code appends uri-only file-reference lines with no budget check at all)
and any ceiling T ≥ 0, the digest's estimated token count e satisfies
3·e ≤ 4·T + (truncation marker + resource-omission marker + content-omission
marker lengths + 2): every content-appending branch — the resource list, the
typed-content list and the flat-text fallback — is bounded by 4/3·T plus
fixed marker overhead, not by T plus one resource's header/footer overhead,
and no configured maximum resource count exists in this implementation. -/
theorem processResources_digest_token_bound (T : ℤ) (hT : 0 ≤ T) (meta : ResourceMeta)
    (hr : ∀ rs, meta.resources = some rs → ∀ r ∈ rs,
      jsTruthyChars r.text = true ∨ jsTruthyChars r.content = true ∨
        jsTruthyChars r.uri = false) :
    3 * (estimateTokenCount (processResources meta T) : ℤ) ≤
      4 * T + ((truncMarker.length : ℤ) + resourcesTruncatedMarker.length +
        contentTruncatedMarker.length + 2) := by
  have htm : (0:ℤ) ≤ (truncMarker.length : ℤ) := Int.ofNat_nonneg _
  have hrtm : (0:ℤ) ≤ (resourcesTruncatedMarker.length : ℤ) := Int.ofNat_nonneg _
  have hctm : (0:ℤ) ≤ (contentTruncatedMarker.length : ℤ) := Int.ofNat_nonneg _
  have hnil : ((([] : List Char)).length : ℤ) = 0 := rfl
  have hlen : ((processResources meta T).length : ℤ) ≤
      4 * T + truncMarker.length + resourcesTruncatedMarker.length +
        contentTruncatedMarker.length := by
    rcases hres : meta.resources with _ | rs <;> rcases hcon : meta.content with _ | items <;>
      simp only [processResources, hres, hcon]
    · split_ifs with hcond havail
      · exact le_trans (flatText_length_bound T _ havail) (by linarith)
      · rw [hnil]
        linarith
      · rw [hnil]
        linarith
    · have hrc2 : ((processContentList T items []).length : ℤ) ≤
          4 * T + truncMarker.length + contentTruncatedMarker.length := by
        refine le_trans (processContentList_length_le T items []) ?_
        rw [hnil, max_eq_right (by linarith)]
      split_ifs with hcond havail
      · exact le_trans (flatText_length_bound T _ havail) (by linarith)
      · exact le_trans hrc2 (by linarith)
      · exact le_trans hrc2 (by linarith)
    · have hrc1 : ((processResourceList T rs []).length : ℤ) ≤
          4 * T + truncMarker.length + resourcesTruncatedMarker.length :=
        processResourceList_length_le T rs [] (hr rs hres) (by rw [hnil]; linarith)
      split_ifs with hcond havail
      · exact le_trans (flatText_length_bound T _ havail) (by linarith)
      · exact le_trans hrc1 (by linarith)
      · exact le_trans hrc1 (by linarith)
    · have hrc1 : ((processResourceList T rs []).length : ℤ) ≤
          4 * T + truncMarker.length + resourcesTruncatedMarker.length :=
        processResourceList_length_le T rs [] (hr rs hres) (by rw [hnil]; linarith)
      have hrc2 : ((processContentList T items (processResourceList T rs [])).length : ℤ) ≤
          4 * T + truncMarker.length + resourcesTruncatedMarker.length +
            contentTruncatedMarker.length := by
        refine le_trans (processContentList_length_le T items _) ?_
        have hmax : max (((processResourceList T rs []).length : ℤ))
            (4 * T + truncMarker.length) ≤
            4 * T + truncMarker.length + resourcesTruncatedMarker.length :=
          max_le (by linarith) (by linarith)
        linarith
      split_ifs with hcond havail
      · exact le_trans (flatText_length_bound T _ havail) (by linarith)
      · exact hrc2
      · exact hrc2
  have h3 : (3 * estimateTokenCount (processResources meta T) : ℤ) ≤
      ((processResources meta T).length : ℤ) + 2 := by
    exact_mod_cast three_mul_estimate_le (processResources meta T)
  linarith

/-- A payload exercising all three shapes at once: the code-like resource,
one typed-content text item, and a flat-text field. -/
def c7MixedMeta : ResourceMeta :=
  { resources := some [c7Resource]
    content := some [{ type := "text".data, text := some "hello world".data }]
    text := some "fallback".data }

/-- C7 amended witness: the bound instantiated at T = 120 on the mixed-shape
payload (resources, typed-content and flat-text all present). -/
theorem processResources_digest_token_bound_witness :
    (0:ℤ) ≤ 120 ∧
    3 * (estimateTokenCount (processResources c7MixedMeta 120) : ℤ) ≤
      4 * 120 + ((truncMarker.length : ℤ) + resourcesTruncatedMarker.length +
        contentTruncatedMarker.length + 2) := by
  have hr : ∀ rs, c7MixedMeta.resources = some rs → ∀ r ∈ rs,
      jsTruthyChars r.text = true ∨ jsTruthyChars r.content = true ∨
        jsTruthyChars r.uri = false := by
    intro rs hrs r hrm
    have hrs' : rs = [c7Resource] := by
      have h : some [c7Resource] = some rs := hrs
      exact (Option.some.inj h).symm
    subst hrs'
    have hr' : r = c7Resource := by simpa using hrm
    subst hr'
    left
    decide
  exact ⟨by norm_num, processResources_digest_token_bound 120 (by norm_num) c7MixedMeta hr⟩
